import Mathlib

/-!
Verification of the automatic-differentiation tutorial notebook
(codes/ipython/1-basics/automatic_differentiation.ipynb).

The notebook consists of four code cells, each of which builds a scalar
tensor, optionally wraps it as a trainable variable, opens a gradient
recording scope (a tape), optionally watches the tensor explicitly,
evaluates one or two power expressions inside the scope, and then queries
the recorded gradient after the scope has exited.

The recording-scope semantics itself belongs to the external framework;
it is modelled here from the spec's description of that behaviour
(tracking of watched values and of trainable-variable reads, the
silent absent result for untracked values, and the drop-after-first-query
rule for non-persistent scopes).  The four cells, their step order and
their recorded outputs are embedded directly from the notebook source.
-/

namespace AutoDiff

/-- Arithmetic expressions in one input, covering the shapes the notebook
evaluates inside the recording scope (x ** 2 and x ** 3). -/
inductive Expr : Type
  | x : Expr
  | const : ℚ → Expr
  | pow : Expr → ℕ → Expr
  | add : Expr → Expr → Expr
  | mul : Expr → Expr → Expr
deriving DecidableEq

/-- Value of an expression at an input value. -/
def Expr.eval : Expr → ℚ → ℚ
  | Expr.x, v => v
  | Expr.const c, _ => c
  | Expr.pow e n, v => (e.eval v) ^ n
  | Expr.add a b, v => a.eval v + b.eval v
  | Expr.mul a b, v => a.eval v * b.eval v

/-- Symbolic derivative of an expression with respect to the input.
Reverse-mode recording of the straight-line expressions in the notebook
computes exactly these values. -/
def Expr.deriv : Expr → Expr
  | Expr.x => Expr.const 1
  | Expr.const _ => Expr.const 0
  | Expr.pow e n => Expr.mul (Expr.mul (Expr.const (n : ℚ)) (Expr.pow e (n - 1))) e.deriv
  | Expr.add a b => Expr.add a.deriv b.deriv
  | Expr.mul a b => Expr.add (Expr.mul a.deriv b) (Expr.mul a b.deriv)

/-- Real-valued reading of an expression, used to compare the model's
gradient with the exact mathematical derivative. -/
def Expr.evalR : Expr → ℝ → ℝ
  | Expr.x, v => v
  | Expr.const c, _ => (c : ℝ)
  | Expr.pow e n, v => (e.evalR v) ^ n
  | Expr.add a b, v => a.evalR v + b.evalR v
  | Expr.mul a b, v => a.evalR v * b.evalR v

/-- A scalar wrapped in a tensor (tf.constant([v])); isVariable records
whether it was further wrapped as a trainable variable (tf.Variable). -/
structure Tensor : Type where
  val : ℚ
  isVariable : Bool
deriving DecidableEq

/-- Modelled from the spec: the external gradient-recording scope
(tf.GradientTape), whose implementation is not part of this repository.
It records operations performed on tracked values while the scope is
open; watched says whether the single input of the cell is tracked,
recorded lists the outputs computed inside the scope, and released marks
a non-persistent tape whose state was dropped by a gradient query. -/
structure GradientTape : Type where
  persistent : Bool
  watchAccessedVariables : Bool
  watched : Bool
  recorded : List Expr
  inScope : Bool
  released : Bool
deriving DecidableEq

/-- Opening a recording scope: with tf.GradientTape(...) as grad. -/
def openTape (p w : Bool) : GradientTape :=
  { persistent := p, watchAccessedVariables := w, watched := false,
    recorded := [], inScope := true, released := false }

/-- Explicitly tracking the input: grad.watch(x). -/
def GradientTape.watch (t : GradientTape) : GradientTape :=
  { t with watched := true }

/-- Modelled from the spec: evaluating an expression on the input inside
the scope.  Reading a trainable variable is automatically tracked when
watch_accessed_variables is set; the operation is recorded only while
the scope is open. -/
def GradientTape.record (t : GradientTape) (x : Tensor) (e : Expr) :
    GradientTape × ℚ :=
  if t.inScope then
    ({ t with
        watched := t.watched || (x.isVariable && t.watchAccessedVariables),
        recorded := t.recorded ++ [e] }, e.eval x.val)
  else (t, e.eval x.val)

/-- Exiting the with-block: recording stops. -/
def GradientTape.close (t : GradientTape) : GradientTape :=
  { t with inScope := false }

/-- Outcome of a gradient query: either a result (none models the silent
absent result None for an untracked value, some g a gradient tensor), or
the failure raised when a released non-persistent tape is queried again. -/
inductive GradResult : Type
  | ok : Option ℚ → GradResult
  | error : GradResult
deriving DecidableEq

/-- Modelled from the spec: tape state after one gradient query; a
non-persistent tape drops its recorded state. -/
def GradientTape.afterQuery (t : GradientTape) : GradientTape :=
  if t.persistent then t else { t with released := true, recorded := [] }

/-- Modelled from the spec: grad.gradient(f, x).  A released tape fails;
a live tape answers the derivative when x was tracked and f was recorded
in scope, and the silent absent result none otherwise. -/
def GradientTape.gradient (t : GradientTape) (f : Expr) (x : Tensor) :
    GradResult × GradientTape :=
  if t.released then (GradResult.error, t)
  else if t.watched = true ∧ f ∈ t.recorded then
    (GradResult.ok (some ((Expr.deriv f).eval x.val)), t.afterQuery)
  else (GradResult.ok none, t.afterQuery)

/-- One notebook statement, as it appears in the cells. -/
inductive Step : Type
  | constructTensor : ℚ → Step
  | wrapVariable : Step
  | openScope : Bool → Bool → Step
  | watch : Step
  | evalExpr : Expr → Step
  | closeScope : Step
  | queryGradient : Expr → Step
  | printResult : Step
deriving DecidableEq

/-- State threaded through the statements of one cell. -/
structure CellState : Type where
  x : Tensor
  tape : GradientTape
  results : List GradResult
  printed : List GradResult
deriving DecidableEq

/-- State at the top of a cell: a zero tensor and no live tape. -/
def initState : CellState :=
  { x := { val := 0, isVariable := false },
    tape := { persistent := false, watchAccessedVariables := true,
              watched := false, recorded := [], inScope := false,
              released := true },
    results := [], printed := [] }

/-- The result a print statement displays: the latest gradient queried. -/
def latestResult (s : CellState) : List GradResult :=
  match s.results.getLast? with
  | some r => [r]
  | none => []

/-- Small-step interpreter for one notebook statement. -/
def runStep (s : CellState) : Step → CellState
  | Step.constructTensor v => { s with x := { val := v, isVariable := false } }
  | Step.wrapVariable => { s with x := { val := s.x.val, isVariable := true } }
  | Step.openScope p w => { s with tape := openTape p w }
  | Step.watch => { s with tape := s.tape.watch }
  | Step.evalExpr e => { s with tape := (s.tape.record s.x e).1 }
  | Step.closeScope => { s with tape := s.tape.close }
  | Step.queryGradient e =>
      { s with tape := (s.tape.gradient e s.x).2,
               results := s.results ++ [(s.tape.gradient e s.x).1] }
  | Step.printResult => { s with printed := s.printed ++ latestResult s }

/-- Running a whole cell from the initial state. -/
def runCell (steps : List Step) : CellState :=
  steps.foldl runStep initState

/-- Third cell: plain constant, no variable wrap, no watch; the printed
gradient is None. -/
def cell3 : List Step :=
  [Step.constructTensor 2, Step.openScope false true,
   Step.evalExpr (Expr.pow Expr.x 2), Step.closeScope,
   Step.queryGradient (Expr.pow Expr.x 2), Step.printResult]

/-- Fourth cell: the tensor is wrapped as a trainable variable; the
printed gradient is 4. -/
def cell4 : List Step :=
  [Step.constructTensor 2, Step.wrapVariable, Step.openScope false true,
   Step.evalExpr (Expr.pow Expr.x 2), Step.closeScope,
   Step.queryGradient (Expr.pow Expr.x 2), Step.printResult]

/-- Fifth cell: plain constant but explicitly watched inside the scope;
the printed gradient is 4. -/
def cell5 : List Step :=
  [Step.constructTensor 2, Step.openScope false true, Step.watch,
   Step.evalExpr (Expr.pow Expr.x 2), Step.closeScope,
   Step.queryGradient (Expr.pow Expr.x 2), Step.printResult]

/-- Seventh cell: variable input, persistent tape, two expressions and
two gradient queries; the printed gradients are 4 and 12. -/
def cell7 : List Step :=
  [Step.constructTensor 2, Step.wrapVariable, Step.openScope true true,
   Step.evalExpr (Expr.pow Expr.x 2), Step.evalExpr (Expr.pow Expr.x 3),
   Step.closeScope,
   Step.queryGradient (Expr.pow Expr.x 2), Step.printResult,
   Step.queryGradient (Expr.pow Expr.x 3), Step.printResult]

/-- The four example cells of the notebook, in order. -/
def notebookCells : List (List Step) := [cell3, cell4, cell5, cell7]

/-- The common shape of an example cell: construct the tensor, optionally
wrap it as a variable, open the recording scope, optionally watch, run
the body expressions, exit the block, then the gradient queries, each
followed by a print. -/
def exampleCell (v : ℚ) (wrap p dw : Bool) (body queries : List Expr) :
    List Step :=
  [Step.constructTensor v] ++ (if wrap then [Step.wrapVariable] else []) ++
  [Step.openScope p true] ++ (if dw then [Step.watch] else []) ++
  body.map Step.evalExpr ++ [Step.closeScope] ++
  (queries.map fun e => [Step.queryGradient e, Step.printResult]).flatten

/-- A cell follows the demonstrated step order when it is an instance of
the common shape with a nonempty body and at least one query. -/
def FollowsPattern (steps : List Step) : Prop :=
  ∃ v wrap p dw body queries, body ≠ ([] : List Expr) ∧
    queries ≠ ([] : List Expr) ∧ steps = exampleCell v wrap p dw body queries

/-- True when a gradient query appears before the scope exit. -/
def queryBeforeScopeExit : List Step → Bool
  | [] => false
  | Step.closeScope :: _ => false
  | Step.queryGradient _ :: _ => true
  | _ :: rest => queryBeforeScopeExit rest

/-- Number of gradient-library calls in a cell. -/
def countGradQueries (steps : List Step) : ℕ :=
  steps.countP fun s =>
    match s with
    | Step.queryGradient _ => true
    | _ => false

/-- Number of print statements in a cell. -/
def countPrints (steps : List Step) : ℕ :=
  steps.countP fun s =>
    match s with
    | Step.printResult => true
    | _ => false

/-- One notebook statement as a transition relation, mirroring the
interpreter; determinism of a cell run is stated over this relation. -/
inductive StepRel : CellState → Step → CellState → Prop
  | construct (s : CellState) (v : ℚ) :
      StepRel s (Step.constructTensor v)
        { s with x := { val := v, isVariable := false } }
  | wrap (s : CellState) :
      StepRel s Step.wrapVariable
        { s with x := { val := s.x.val, isVariable := true } }
  | openS (s : CellState) (p w : Bool) :
      StepRel s (Step.openScope p w) { s with tape := openTape p w }
  | watchS (s : CellState) :
      StepRel s Step.watch { s with tape := s.tape.watch }
  | evalS (s : CellState) (e : Expr) :
      StepRel s (Step.evalExpr e) { s with tape := (s.tape.record s.x e).1 }
  | closeS (s : CellState) :
      StepRel s Step.closeScope { s with tape := s.tape.close }
  | queryS (s : CellState) (e : Expr) :
      StepRel s (Step.queryGradient e)
        { s with tape := (s.tape.gradient e s.x).2,
                 results := s.results ++ [(s.tape.gradient e s.x).1] }
  | printS (s : CellState) :
      StepRel s Step.printResult { s with printed := s.printed ++ latestResult s }

/-- Execution of a list of statements as a relation. -/
inductive RunRel : CellState → List Step → CellState → Prop
  | nil (s : CellState) : RunRel s [] s
  | cons {s s2 s3 : CellState} {st : Step} {rest : List Step} :
      StepRel s st s2 → RunRel s2 rest s3 → RunRel s (st :: rest) s3

theorem stepRel_det {s : CellState} {st : Step} {o1 o2 : CellState}
    (h1 : StepRel s st o1) (h2 : StepRel s st o2) : o1 = o2 := by
  cases h1 <;> cases h2 <;> rfl

theorem stepRel_runStep (s : CellState) (st : Step) :
    StepRel s st (runStep s st) := by
  cases st with
  | constructTensor v => exact StepRel.construct s v
  | wrapVariable => exact StepRel.wrap s
  | openScope p w => exact StepRel.openS s p w
  | watch => exact StepRel.watchS s
  | evalExpr e => exact StepRel.evalS s e
  | closeScope => exact StepRel.closeS s
  | queryGradient e => exact StepRel.queryS s e
  | printResult => exact StepRel.printS s

theorem runRel_run (steps : List Step) (s : CellState) :
    RunRel s steps (List.foldl runStep s steps) := by
  induction steps generalizing s with
  | nil => exact RunRel.nil s
  | cons st rest ih =>
      exact RunRel.cons (stepRel_runStep s st) (ih (runStep s st))

theorem hasDerivAt_evalR (e : Expr) (v : ℝ) :
    HasDerivAt (fun y => Expr.evalR e y) ((Expr.deriv e).evalR v) v := by
  induction e with
  | x => simpa [Expr.evalR, Expr.deriv] using hasDerivAt_id v
  | const c => simpa [Expr.evalR, Expr.deriv] using hasDerivAt_const v (c : ℝ)
  | pow e n ih =>
      simpa [Expr.evalR, Expr.deriv, Rat.cast_natCast] using ih.pow n
  | add a b iha ihb =>
      simpa [Expr.evalR, Expr.deriv] using iha.add ihb
  | mul a b iha ihb =>
      simpa [Expr.evalR, Expr.deriv] using iha.mul ihb

/-- C1: a gradient query for a plain constant tensor that was neither
wrapped as a variable nor explicitly watched returns the silent absent
result (None) and no failure; in particular the third cell prints None. -/
theorem C1_untracked_constant_silent_none :
    (∀ (v : ℚ) (e : Expr),
      (runCell (exampleCell v false false false [e] [e])).results =
        [GradResult.ok none]) ∧
    (runCell cell3).results = [GradResult.ok none] := by
  constructor
  · intro v e
    simp [exampleCell, runCell, runStep, initState, openTape,
      GradientTape.record, GradientTape.close, GradientTape.gradient,
      GradientTape.afterQuery, latestResult]
  · simp [runCell, cell3, runStep, initState, openTape,
      GradientTape.record, GradientTape.close, GradientTape.gradient,
      GradientTape.afterQuery, latestResult]

/-- C2: the gradients the notebook reports on tracked inputs are the
exact mathematical derivatives: 4 for x ** 2 at 2 and 12 for x ** 3
at 2; in general the model's recorded gradient of every expression is
the exact derivative of its real-valued reading. -/
theorem C2_gradient_is_exact_derivative :
    (runCell cell4).results = [GradResult.ok (some 4)] ∧
    (runCell cell7).results =
      [GradResult.ok (some 4), GradResult.ok (some 12)] ∧
    HasDerivAt (fun y : ℝ => y ^ 2) 4 2 ∧
    HasDerivAt (fun y : ℝ => y ^ 3) 12 2 ∧
    (∀ (e : Expr) (v : ℝ),
      HasDerivAt (fun y => Expr.evalR e y) ((Expr.deriv e).evalR v) v) := by
  refine ⟨?_, ?_, ?_, ?_, hasDerivAt_evalR⟩
  · simp [runCell, cell4, runStep, initState, openTape,
      GradientTape.record, GradientTape.close, GradientTape.gradient,
      GradientTape.afterQuery, GradientTape.watch, Expr.deriv, Expr.eval,
      latestResult]
    norm_num
  · simp [runCell, cell7, runStep, initState, openTape,
      GradientTape.record, GradientTape.close, GradientTape.gradient,
      GradientTape.afterQuery, GradientTape.watch, Expr.deriv, Expr.eval,
      latestResult]
    norm_num
  · have h := hasDerivAt_pow 2 (2 : ℝ)
    norm_num at h
    exact h
  · have h := hasDerivAt_pow 3 (2 : ℝ)
    norm_num at h
    exact h

/-- C3: a non-persistent tape drops its recorded state at the first
gradient query, and a second query on it fails rather than succeeding;
a persistent tape answers successive queries correctly, as in the
seventh cell which obtains 4 and then 12 from one tape. -/
theorem C3_nonpersistent_dropped_persistent_reused :
    (∀ (t : GradientTape) (x : Tensor) (f g : Expr),
        t.persistent = false → t.released = false →
        (t.gradient f x).2.recorded = [] ∧
        ((t.gradient f x).2.gradient g x).1 = GradResult.error) ∧
    (runCell cell7).results =
      [GradResult.ok (some 4), GradResult.ok (some 12)] := by
  constructor
  · intro t x f g hp hr
    have h2 : (t.gradient f x).2 = { t with released := true, recorded := [] } := by
      unfold GradientTape.gradient
      rw [hr]
      simp only [Bool.false_eq_true, if_false]
      split <;> simp [GradientTape.afterQuery, hp]
    refine ⟨?_, ?_⟩
    · rw [h2]
    · rw [h2]
      unfold GradientTape.gradient
      simp
  · simp [runCell, cell7, runStep, initState, openTape,
      GradientTape.record, GradientTape.close, GradientTape.gradient,
      GradientTape.afterQuery, GradientTape.watch, Expr.deriv, Expr.eval,
      latestResult]
    norm_num

/-- Concrete check for C3: querying a fresh non-persistent tape once
empties it and makes a second query fail. -/
theorem C3_nonpersistent_dropped_persistent_reused_check :
    ((openTape false true).gradient (Expr.pow Expr.x 2)
        { val := 2, isVariable := false }).2.recorded = [] ∧
    (((openTape false true).gradient (Expr.pow Expr.x 2)
        { val := 2, isVariable := false }).2.gradient (Expr.pow Expr.x 3)
        { val := 2, isVariable := false }).1 = GradResult.error :=
  C3_nonpersistent_dropped_persistent_reused.1 (openTape false true)
    { val := 2, isVariable := false } (Expr.pow Expr.x 2)
    (Expr.pow Expr.x 3) rfl rfl

/-- C4: an input wrapped as a trainable variable and read inside a
scope opened with watch_accessed_variables set is tracked without any
explicit watch call, and the gradient query returns the derivative
(never the absent result); concretely the fourth cell prints 4. -/
theorem C4_variable_auto_tracked :
    (∀ (v : ℚ) (e : Expr),
      (runCell (exampleCell v true false false [e] [e])).results =
        [GradResult.ok (some ((Expr.deriv e).eval v))]) ∧
    (runCell cell4).results = [GradResult.ok (some 4)] := by
  constructor
  · intro v e
    simp [exampleCell, runCell, runStep, initState, openTape,
      GradientTape.record, GradientTape.close, GradientTape.gradient,
      GradientTape.afterQuery, latestResult]
  · simp [runCell, cell4, runStep, initState, openTape,
      GradientTape.record, GradientTape.close, GradientTape.gradient,
      GradientTape.afterQuery, GradientTape.watch, Expr.deriv, Expr.eval,
      latestResult]
    norm_num

/-- C5: each of the four example cells is an instance of the fixed step
order construct tensor, optionally wrap as variable, open scope,
optionally watch, evaluate the body, exit, then query gradients. -/
theorem C5_cells_follow_pattern :
    FollowsPattern cell3 ∧ FollowsPattern cell4 ∧
    FollowsPattern cell5 ∧ FollowsPattern cell7 :=
  ⟨⟨2, false, false, false, [Expr.pow Expr.x 2], [Expr.pow Expr.x 2],
      by simp, by simp, rfl⟩,
   ⟨2, true, false, false, [Expr.pow Expr.x 2], [Expr.pow Expr.x 2],
      by simp, by simp, rfl⟩,
   ⟨2, false, false, true, [Expr.pow Expr.x 2], [Expr.pow Expr.x 2],
      by simp, by simp, rfl⟩,
   ⟨2, true, true, false, [Expr.pow Expr.x 2, Expr.pow Expr.x 3],
      [Expr.pow Expr.x 2, Expr.pow Expr.x 3], by simp, by simp, rfl⟩⟩

/-- C6: recording stops once the with-block has exited (an evaluation on
a closed tape records nothing), and in every example cell the gradient
queries appear only after the scope-exit point. -/
theorem C6_scope_bounded_recording :
    (∀ (t : GradientTape) (x : Tensor) (e : Expr),
        t.inScope = false → (t.record x e).1 = t) ∧
    (queryBeforeScopeExit cell3 = false ∧ Step.closeScope ∈ cell3) ∧
    (queryBeforeScopeExit cell4 = false ∧ Step.closeScope ∈ cell4) ∧
    (queryBeforeScopeExit cell5 = false ∧ Step.closeScope ∈ cell5) ∧
    (queryBeforeScopeExit cell7 = false ∧ Step.closeScope ∈ cell7) := by
  refine ⟨?_, ⟨by decide, by decide⟩, ⟨by decide, by decide⟩,
    ⟨by decide, by decide⟩, ⟨by decide, by decide⟩⟩
  intro t x e h
  simp [GradientTape.record, h]

/-- Concrete check for C6: evaluating against an already closed tape
leaves the tape unchanged. -/
theorem C6_scope_bounded_recording_check :
    ((openTape false true).close.record { val := 2, isVariable := false }
      (Expr.pow Expr.x 2)).1 = (openTape false true).close :=
  C6_scope_bounded_recording.1 (openTape false true).close
    { val := 2, isVariable := false } (Expr.pow Expr.x 2) rfl

/-- C7 counterexample: the persistent cell issues two gradient-library
calls and two print statements, so it is not one call and one print. -/
theorem C7_one_call_one_print_refuted :
    countGradQueries cell7 = 2 ∧ countPrints cell7 = 2 ∧
    ¬(countGradQueries cell7 = 1 ∧ countPrints cell7 = 1) := by decide

/-- C7 (amended): the notebook has exactly four example cells, each an
instance of the common shape with one tracking parameter varied; the
first three cells issue exactly one gradient call and one print, while
the persistent cell issues two gradient calls each followed by a print. -/
theorem C7_four_cells_one_parameter_varied :
    notebookCells.length = 4 ∧
    cell3 = exampleCell 2 false false false [Expr.pow Expr.x 2]
      [Expr.pow Expr.x 2] ∧
    cell4 = exampleCell 2 true false false [Expr.pow Expr.x 2]
      [Expr.pow Expr.x 2] ∧
    cell5 = exampleCell 2 false false true [Expr.pow Expr.x 2]
      [Expr.pow Expr.x 2] ∧
    cell7 = exampleCell 2 true true false
      [Expr.pow Expr.x 2, Expr.pow Expr.x 3]
      [Expr.pow Expr.x 2, Expr.pow Expr.x 3] ∧
    countGradQueries cell3 = 1 ∧ countPrints cell3 = 1 ∧
    countGradQueries cell4 = 1 ∧ countPrints cell4 = 1 ∧
    countGradQueries cell5 = 1 ∧ countPrints cell5 = 1 ∧
    countGradQueries cell7 = 2 ∧ countPrints cell7 = 2 :=
  ⟨rfl, rfl, rfl, rfl, rfl, by decide, by decide, by decide, by decide,
   by decide, by decide, by decide, by decide⟩

/-- C8: wrapping the input as a trainable variable and explicitly
watching a plain constant are equivalent tracking routes: they produce
the same gradient for every input and every expression, and in the
notebook both print 4 for x ** 2 at 2. -/
theorem C8_variable_and_watch_routes_agree :
    (∀ (v : ℚ) (e : Expr),
      (runCell (exampleCell v true false false [e] [e])).results =
        (runCell (exampleCell v false false true [e] [e])).results) ∧
    (runCell cell4).results = (runCell cell5).results ∧
    (runCell cell4).results = [GradResult.ok (some 4)] := by
  refine ⟨?_, ?_, ?_⟩
  · intro v e
    simp [exampleCell, runCell, runStep, initState, openTape,
      GradientTape.record, GradientTape.close, GradientTape.gradient,
      GradientTape.afterQuery, GradientTape.watch, latestResult]
  · simp [runCell, cell4, cell5, runStep, initState, openTape,
      GradientTape.record, GradientTape.close, GradientTape.gradient,
      GradientTape.afterQuery, GradientTape.watch, latestResult]
  · simp [runCell, cell4, runStep, initState, openTape,
      GradientTape.record, GradientTape.close, GradientTape.gradient,
      GradientTape.afterQuery, GradientTape.watch, Expr.deriv, Expr.eval,
      latestResult]
    norm_num

/-- C9: a gradient query never changes the input tensor, and on a
persistent tape it leaves the whole tape state unchanged, which is why
the seventh cell's second query still answers the derivative of the
other recorded output at the original input. -/
theorem C9_gradient_query_frame :
    (∀ (s : CellState) (e : Expr),
        (runStep s (Step.queryGradient e)).x = s.x) ∧
    (∀ (t : GradientTape) (f : Expr) (x : Tensor),
        t.persistent = true → (t.gradient f x).2 = t) ∧
    (runCell cell7).results =
      [GradResult.ok (some 4), GradResult.ok (some 12)] := by
  refine ⟨fun s e => rfl, ?_, ?_⟩
  · intro t f x hp
    unfold GradientTape.gradient
    split
    · rfl
    · split <;> simp [GradientTape.afterQuery, hp]
  · simp [runCell, cell7, runStep, initState, openTape,
      GradientTape.record, GradientTape.close, GradientTape.gradient,
      GradientTape.afterQuery, GradientTape.watch, Expr.deriv, Expr.eval,
      latestResult]
    norm_num

/-- Concrete check for C9: a query on a fresh persistent tape returns
the tape unchanged, and a query step preserves the input tensor. -/
theorem C9_gradient_query_frame_check :
    ((openTape true true).gradient (Expr.pow Expr.x 2)
      { val := 2, isVariable := false }).2 = openTape true true ∧
    (runStep initState (Step.queryGradient (Expr.pow Expr.x 2))).x =
      initState.x :=
  ⟨C9_gradient_query_frame.2.1 (openTape true true) (Expr.pow Expr.x 2)
      { val := 2, isVariable := false } rfl,
   C9_gradient_query_frame.1 initState (Expr.pow Expr.x 2)⟩

/-- C10: cell execution is deterministic: two runs of the same statement
list from the same state end in the same state, so every cell, rerun
with the same input, expression and tape configuration, reproduces its
gradient results, including the absent result of the untracked case. -/
theorem C10_execution_deterministic (s : CellState) (steps : List Step)
    (o1 o2 : CellState) (h1 : RunRel s steps o1) (h2 : RunRel s steps o2) :
    o1 = o2 := by
  induction h1 generalizing o2 with
  | nil s => cases h2 with | nil => rfl
  | cons hstep hrest ih =>
      cases h2 with
      | cons hstep2 hrest2 =>
          have he := stepRel_det hstep hstep2
          subst he
          exact ih o2 hrest2

/-- Concrete check for C10: the third cell's run is a valid execution
and determinism applies to it. -/
theorem C10_execution_deterministic_check :
    RunRel initState cell3 (runCell cell3) ∧ runCell cell3 = runCell cell3 :=
  ⟨runRel_run cell3 initState,
   C10_execution_deterministic initState cell3 (runCell cell3)
     (runCell cell3) (runRel_run cell3 initState) (runRel_run cell3 initState)⟩

end AutoDiff
